import Mathlib

/-!
# Verification of git4intel `Client` behaviours

Shallow embedding of the parts of `git4intel/client.py` that the claims
concern: the tlp+ marking manager (`set_tlpplus`), the molecule traversal
engine (`get_molecule`), the per-user policy alias builder/cache
(`get_id_markings`) and the `search` wrapper defaults.

Conventions:
* STIX identifiers are strings of the form `type--uuid`; `idType`/`idUuid`
  model Python's `s.split('--')[0]` / `s.split('--')[1]`.
* The Elasticsearch store is modelled as explicit data threaded through the
  functions; match semantics on `id` / `*_ref` / `*_refs` fields compare the
  uuid part, which is how the analysed fields behave for the queries the
  client issues.
* Functions from `git4intel/utils.py` are not part of the sources under
  review; where a claim needs one it is modelled from the spec and marked
  `Modelled from the spec:` in its doc comment.
-/

namespace Git4Intel

/-- Split a character list at every occurrence of `--` (Python
`str.split('--')`), accumulating the current chunk in reverse. -/
def splitDDAux : List Char → List Char → List (List Char)
  | [], acc => [acc.reverse]
  | '-' :: '-' :: rest, acc => acc.reverse :: splitDDAux rest []
  | c :: rest, acc => splitDDAux rest (c :: acc)

/-- Python `s.split('--')`. -/
def splitDD (s : String) : List String := (splitDDAux s.data []).map String.mk

/-- Python `s.split('--')[0]` for a STIX id: the object type / index name. -/
def idType (s : String) : String := (splitDD s).getD 0 ""

/-- Python `s.split('--')[1]` for a STIX id: the uuid / document id part. -/
def idUuid (s : String) : String := (splitDD s).getD 1 ""

/-- Lexicographic (code-point) `≤` on strings, as Python compares strings,
computed characterwise. -/
def charListLe : List Char → List Char → Bool
  | [], _ => true
  | _ :: _, [] => false
  | a :: as, b :: bs => if a = b then charListLe as bs else decide (a < b)

/-- Python string `≤`. -/
def strLe (a b : String) : Bool := charListLe a.data b.data

/-- Insert into a `strLe`-sorted list. -/
def insertLe (x : String) : List String → List String
  | [] => [x]
  | y :: ys => if strLe x y then x :: y :: ys else y :: insertLe x ys

/-- Insertion sort by `strLe` (ascending, as Python `sorted`). -/
def sortStr : List String → List String
  | [] => []
  | x :: xs => insertLe x (sortStr xs)

/-- Python `str` of a list of strings, e.g. `['a', 'b']`
(quotes written with `\x27` escapes). -/
def pyStrList (l : List String) : String :=
  "[" ++ String.intercalate ", " (l.map fun s => "\x27" ++ s ++ "\x27") ++ "]"

/-- Constant `stix2.TLP_AMBER.id` from the STIX 2.1 standard. -/
def TLP_AMBER_id : String :=
  "marking-definition--f88d31f6-58f7-4602-81f8-8e6c2a891cf6"

/-- Constant `stix2.TLP_RED.id` from the STIX 2.1 standard. -/
def TLP_RED_id : String :=
  "marking-definition--5e57c739-391a-4eb3-b6be-7d15ca92d5ed"

/-- Modelled from the spec: `utils.get_deterministic_uuid` is not under the
sources reviewed here.  Per the spec it derives an identifier
deterministically from the seed string by content hashing ("identical inputs
always yield the identical identifier (content addressing)").  The hash is
modelled as the seed itself with `-` replaced by `~` (`contentHash`), which
is deterministic, collision-free on `~`-free inputs, and keeps the produced
id's `type--uuid` split well formed. -/
def contentHash (seed : String) : String :=
  ⟨seed.data.map fun c => if c = '-' then '~' else c⟩

/-- Modelled from the spec: see `contentHash`. `utils.get_deterministic_uuid`
prepends the id-type prefix to the content hash of the seed. -/
def get_deterministic_uuid (pre seed : String) : String :=
  pre ++ contentHash seed

/-- A stored `marking-definition` document, with the fields `set_tlpplus`
serialises (`definition_type`, the `definition` payload and
`created_by_ref`). -/
structure MarkingDef where
  id : String
  definition_type : String
  tlp_marking_def_ref : String
  distribution_refs : List String
  created_by_ref : String
deriving DecidableEq, Repr

/-- The store for marking definitions: documents keyed by
`(index, doc_id)` exactly as `__store_object` derives them from the id. -/
def MdStore := List (String × String × MarkingDef)

instance : DecidableEq MdStore := by
  unfold MdStore; infer_instance

/-- The call `self.exists(index=..., id=...)`: a document with that key is present. -/
def storeExists (st : MdStore) (idx did : String) : Bool :=
  st.any fun e => e.1 == idx && e.2.1 == did

/-- The call `self.index(index=..., id=..., body=obj)` via `__store_object`:
create-or-update of the document under its derived key. -/
def storePut (st : MdStore) (m : MarkingDef) : MdStore :=
  (idType m.id, idUuid m.id, m) ::
    st.filter fun e => !(e.1 == idType m.id && e.2.1 == idUuid m.id)

/-- Result of `set_tlpplus`: `False`, the bare id (already-exists path), or
the `(md_id, md_json)` pair (creation path). -/
inductive TlpRet
  | err
  | existing (md_id : String)
  | created (md_id : String) (md : MarkingDef)
deriving DecidableEq, Repr

/-- The marking identifier a `TlpRet` carries, if any. -/
def TlpRet.retId : TlpRet → Option String
  | .err => none
  | .existing i => some i
  | .created i _ => some i

/-- Embedding of `Client.set_tlpplus(user_id, tlp_marking_def_ref, distribution_refs)`.

Returns the result, the store after the call, and the caller-visible value
of the `distribution_refs` list argument after the call (the source appends
`tlp_marking_def_ref` to the caller's list in place; the subsequent
`distribution_refs = sorted(set(distribution_refs))` only rebinds the local
name and is never read again, so it has no observable effect). The
`isinstance(distribution_refs, list)` check is vacuous in this typed model. -/
def set_tlpplus (st : MdStore) (user_id tlp_marking_def_ref : String)
    (distribution_refs : List String) : TlpRet × MdStore × List String :=
  if idType user_id ≠ "identity" then (.err, st, distribution_refs)
  else if tlp_marking_def_ref ≠ TLP_AMBER_id ∧ tlp_marking_def_ref ≠ TLP_RED_id then
    (.err, st, distribution_refs)
  else
    let ref_list := distribution_refs
    let caller_list := distribution_refs ++ [tlp_marking_def_ref]
    let md_id := get_deterministic_uuid "marking-definition--" (pyStrList ref_list)
    if storeExists st "marking-definition" (idUuid md_id) then
      (.existing md_id, st, caller_list)
    else
      let md : MarkingDef :=
        ⟨md_id, "tlp-plus", tlp_marking_def_ref, ref_list, user_id⟩
      (.created md_id md, storePut st md, caller_list)

/-- Definition following the spec's words, for comparison with the source:
the spec states the *stored* `distribution_refs` is "the sorted,
de-duplicated, base-classification-inclusive version" of the input
distribution set. -/
def specStoredDistributionRefs (refs : List String) (base : String) : List String :=
  sortStr ((refs ++ [base]).dedup)

/-! ## Graph traversal engine: `Client.get_molecule` -/

/-- A stored object as the round searches see it: its `id`, its `*_ref`
fields (name, value) and its `*_refs` fields (name, values).  Field names
matter because the round searches pass
`_source_excludes=["created_by_ref", "object_marking_refs"]`: those fields
still match the `query_string` over `*_ref`/`*_refs` but are removed from
the returned `_source`, hence never harvested. -/
structure Obj where
  id : String
  ref1 : List (String × String)
  refN : List (String × List String)
deriving DecidableEq, Repr

/-- All reference values of an object (what the `query_string` over
`*_ref`/`*_refs` fields sees). -/
def Obj.refVals (o : Obj) : List String :=
  o.ref1.map Prod.snd ++ o.refN.flatMap Prod.snd

/-- The round query built at the top of the `while` loop: the object's own
`id` matches one of the frontier uuids, or some reference field holds one of
the frontier uuids.  With an empty frontier there are no id clauses and the
`query_string` is empty, matching nothing. -/
def frontierMatch (front : List String) (o : Obj) : Bool :=
  front.any (fun f => idUuid f == idUuid o.id) ||
    (o.refVals).any (fun r => front.any fun f => idUuid f == idUuid r)

/-- A molecule-schema clause, interpreted (as in the source) by the store's
predicate language: an opaque boolean criterion on objects. -/
def Clause := Obj → Bool

/-- The filter `{"bool": {"should": clauses}}`: any clause matches. -/
def anyClause (cs : List Clause) : Clause := fun o => cs.any fun c => c o

/-- One policy-scoped round search (`self.search` with the round body and one
schema criterion): the store objects matching both the frontier query and the
criterion.  Visibility filtering (`_md`) is folded into `store` being the
store as visible to the requesting user. -/
def roundHits (store : List Obj) (front : List String) (c : Clause) : List Obj :=
  store.filter fun o => frontierMatch front o && c o

/-- Harvest of one hit: every value of the (filtered) `_source` — the `id`,
each `*_ref` value, and each truthy element of each `*_refs` list —
with `created_by_ref` / `object_marking_refs` excluded by
`_source_excludes`. -/
def harvest (o : Obj) : List String :=
  o.id ::
    ((o.ref1.filter fun p =>
        p.1 ≠ "created_by_ref" ∧ p.1 ≠ "object_marking_refs").map Prod.snd ++
     (o.refN.filter fun p =>
        p.1 ≠ "created_by_ref" ∧ p.1 ≠ "object_marking_refs").flatMap
       fun p => p.2.filter (· ≠ ""))

/-- Assignment `check_lst[count] = bool(res)` with `IndexError` appending instead. -/
def setOrPush (lst : List Bool) (n : Nat) (b : Bool) : List Bool :=
  if n < lst.length then lst.set n b else lst ++ [b]

/-- Output of the per-round clause loop (`for schema in schemas` with
`pivot = false`): the absolute indices of the clauses actually queried, the
ids harvested from their hits, and the updated `check_lst`. -/
structure ClauseOut where
  queried : List Nat
  harvested : List String
  lst : List Bool
deriving Repr

/-- The `for schema in schemas` body for `pivot = false`: a clause is skipped
when `check_lst[count] is True` (out-of-range reads pass), and — exactly as in
the source — skipping does **not** advance `count`, so subsequent clauses are
compared against the same `check_lst` slot.  Queried clauses record
`bool(res)` at slot `count` and advance it.  `idx` is the absolute clause
position, used only for the trace. -/
def clauseLoop (store : List Obj) (front : List String) :
    List Clause → List Bool → Nat → Nat → ClauseOut
  | [], lst, _, _ => ⟨[], [], lst⟩
  | c :: rest, lst, count, idx =>
    if lst.getD count false then
      clauseLoop store front rest lst count (idx + 1)
    else
      let hits := roundHits store front c
      let lst' := setOrPush lst count (!hits.isEmpty)
      let r := clauseLoop store front rest lst' (count + 1) (idx + 1)
      ⟨idx :: r.queried, hits.flatMap harvest ++ r.harvested, r.lst⟩

/-- Result of `get_molecule`: `False`, the id list, or the hydrated object
list. -/
inductive MolRes
  | failure
  | ids (l : List String)
  | objs (l : List Obj)
deriving DecidableEq, Repr

/-- Output of a traversal, together with an execution trace: per executed
round the clause indices actually searched, the number of rounds in which the
frontier grew (the source's `failed` counter), the identifier set at
termination, and the final hydration searches issued (final id set, whether
the caller's extra `query` was conjoined). -/
structure MolOut where
  res : MolRes
  rounds : List (List Nat)
  growths : Nat
  finalIds : List String
  finalSearches : List (List String × Bool)
deriving Repr

/-- The final hydration search (`new_len == old_len` and `objs` path): one
`self.search` whose body requires the object's id to be in the final id set
(an empty `should` list constrains nothing, per the store's semantics) and,
when given, the caller's extra `query`, filtered by the whole schema. -/
def finalSearch (store : List Obj) (schemaClauses : List Clause)
    (query : Option Clause) (ids : List String) : List Obj :=
  store.filter fun o =>
    (ids.isEmpty || ids.any fun f => idUuid f == idUuid o.id) &&
      anyClause schemaClauses o &&
      (match query with | none => true | some q => q o)

/-- The searches of one round (`for schema in schemas`): with `pivot` the
whole schema is one atomic criterion and one search runs; without it the
schema is decomposed and `clauseLoop` runs over the clause list with the
persistent `check_lst`. -/
def molRoundStep (store : List Obj) (schemaClauses : List Clause) (pivot : Bool)
    (ids : List String) (lst : List Bool) : ClauseOut :=
  if pivot then
    ⟨[0], (roundHits store ids (anyClause schemaClauses)).flatMap harvest, lst⟩
  else clauseLoop store ids schemaClauses lst 0 0

/-- The `while True` loop of `get_molecule`.  `fuel` is the number of
frontier-growth rounds still licensed: the source increments `failed` on each
growth round and returns `False` once `failed > 3`, so execution from
`fuel = 4` is exact.  A fixpoint round (`new_len == old_len`) returns the
ids, or runs the single hydration search when `objs` was requested. -/
def molLoop (store : List Obj) (schemaClauses : List Clause) (pivot : Bool)
    (objs : Bool) (query : Option Clause) :
    List String → List Bool → Nat → MolOut
  | _, _, 0 => ⟨.failure, [], 0, [], []⟩
  | ids, lst, fuel + 1 =>
    let step := molRoundStep store schemaClauses pivot ids lst
    let ids' := (ids ++ step.harvested).dedup
    if ids'.length = ids.length then
      if objs then
        ⟨.objs (finalSearch store schemaClauses query ids'), [step.queried], 0,
          ids', [(ids', query.isSome)]⟩
      else ⟨.ids ids', [step.queried], 0, ids', []⟩
    else
      let rest := molLoop store schemaClauses pivot objs query ids' step.lst fuel
      ⟨rest.res, step.queried :: rest.rounds, rest.growths + 1, rest.finalIds,
        rest.finalSearches⟩

/-- The environment `get_molecule` runs against: the store as visible to the
requesting user, and the schema registry (`utils.get_schema`), a pure lookup
from schema name to the schema's `bool.should` clause list (modelled from the
spec for the registry itself, which is not under the reviewed sources; per
the spec an unknown name is a failure). -/
structure MolEnv where
  store : List Obj
  schemas : String → Option (List Clause)

/-- A Python argument that should be a string but need not be. -/
inductive PyStr
  | str (s : String)
  | notStr
deriving DecidableEq, Repr

/-- Embedding of `Client.get_molecule(user_id, stix_ids, schema_name, objs, query, pivot,
_md)`.  `objs`/`pivot` are the values after the `None` defaulting
(`pivot = None` means `true`, `objs = None` means `false`); `_md` only
selects the visible store, which is `env.store` here. -/
def get_molecule (env : MolEnv) (stix_ids : List String) (schema_name : PyStr)
    (objs : Bool) (query : Option Clause) (pivot : Bool) : MolOut :=
  match schema_name with
  | .notStr => ⟨.failure, [], 0, [], []⟩
  | .str name =>
    match env.schemas name with
    | none => ⟨.failure, [], 0, [], []⟩
    | some clauses => molLoop env.store clauses pivot objs query stix_ids [] 4

/-! ## Access policy builder and policy cache: `Client.get_id_markings` -/

/-- An object returned by the `org` molecule lookup inside
`get_id_markings`, with the two fields the function reads: `id` and
`type`. -/
structure OrgObj where
  id : String
  typ : String
deriving DecidableEq, Repr

/-- Lines 362–368: the candidate "distribution" criterion set for the
Marking Definition search — one `match` on `definition.distribution_refs`
per uuid.  Starts from the requesting user's uuid; an org-chart object
contributes its uuid only when its `type` field equals the literal
`'organization'`. -/
def buildOrgShould (user_id : String) (orgObjs : List OrgObj) : List String :=
  idUuid user_id ::
    (orgObjs.filter fun o => o.typ == "organization").map fun o => idUuid o.id

/-- One disjunct of the visibility predicate (`valid_refs`): no markings at
all, an open-source marking reference, a PII-marked org-chart identity, or a
matched distribution marking reference. -/
inductive VClause
  | noMarkings
  | osRef (uuid : String)
  | piiOrg (orgUuid piiUuid : String)
  | mdRef (uuid : String)
deriving DecidableEq, Repr

/-- Store-level operations of `get_id_markings`, in execution order, for the
cache-behaviour claims: stale-view deletion (`indices.delete_alias` with the
`root*` pattern), predicate construction, and view creation
(`indices.put_alias`). -/
inductive AliasEvent
  | deletedPattern (root : String)
  | builtPredicate
  | createdView (name : String)
deriving DecidableEq, Repr

/-- The environment `get_id_markings` reads: the Open-Group Object's
`object_refs`, the result of the `org` molecule traversal for the user
(empty models the falsy `not org_objs` outcome), the Marking Definitions in
the store as `(id, distribution_refs)`, and the PII marking id. -/
structure IdMarkEnv where
  osRefs : List String
  orgObjs : List OrgObj
  markingDefs : List (String × List String)
  piiMarkingId : String

/-- Modelled from the spec: `utils.md_time_index` is not under the reviewed
sources.  Per the spec the policy cache key is (user, logical index,
calendar day) and stale views match the user+index name pattern, so the
name root is a function of user and index and the date part is the current
calendar day (passed here as `today`). -/
def md_time_index (user_id old_alias today : String) : String × String :=
  (old_alias ++ "-md-" ++ idUuid user_id, today)

/-- The per-user, per-day view store: `(root, date, filter body)` records.
The view's alias name is `root ++ "--" ++ date`; name equality and the
`root*` delete pattern are modelled structurally on the `(root, date)`
pair. -/
def AliasStore := List (String × String × List VClause)

instance : DecidableEq AliasStore := by
  unfold AliasStore; infer_instance

/-- The check `indices.exists_alias(name = root ++ "--" ++ date)`. -/
def aliasMem (st : AliasStore) (root date : String) : Bool :=
  st.any fun a => a.1 == root && a.2.1 == date

/-- The visibility predicate `get_id_markings` builds on a cache miss
(`valid_refs`, lines 341–385): no-markings, one disjunct per Open-Group
reference, one PII disjunct per org-chart object, and one disjunct per
Marking Definition whose `distribution_refs` intersect the candidate
criterion set `buildOrgShould`. -/
def policyBody (env : IdMarkEnv) (user_id : String) : List VClause :=
  (VClause.noMarkings :: env.osRefs.map fun r => VClause.osRef (idUuid r)) ++
    env.orgObjs.map (fun o =>
      VClause.piiOrg (idUuid o.id) (idUuid env.piiMarkingId)) ++
    (env.markingDefs.filter fun m =>
      m.2.any fun d => (buildOrgShould user_id env.orgObjs).contains (idUuid d)
      ).map fun m => VClause.mdRef (idUuid m.1)

/-- Embedding of `Client.get_id_markings(user_id, index_alias)`, with the calendar day
`today` and the store environment made explicit.  Returns the view name (or
`none` for the `False` outcome when the org chart cannot be resolved), the
view store after the call, and the trace of store-level operations. -/
def get_id_markings (st : AliasStore) (env : IdMarkEnv)
    (today user_id index_alias : String) :
    Option String × AliasStore × List AliasEvent :=
  let root := (md_time_index user_id index_alias today).1
  let date := (md_time_index user_id index_alias today).2
  let name := root ++ "--" ++ date
  if aliasMem st root date then (some name, st, [])
  else
    let st1 := st.filter fun a => !(a.1 == root)
    if env.orgObjs.isEmpty then (none, st1, [.deletedPattern root])
    else
      (some name, (root, date, policyBody env user_id) :: st1,
        [.deletedPattern root, .builtPredicate, .createdView name])

/-! ## Search wrapper defaults: `Client.search` -/

/-- What the `search` wrapper resolves before delegating: the effective
`_md` flag, the logical index after defaulting (line 130), the index string
actually passed to the underlying search (the per-user policy alias when
`_md` applies), the effective `size`, and the returned hits, which the store
truncates to `size`. -/
structure SearchOut where
  md : Bool
  logicalIndex : String
  targetIndex : String
  size : Nat
  hits : List Obj
deriving Repr

/-- Embedding of `Client.search(user_id, schema, _md, **kwargs)` restricted to the
defaulting and delegation behaviour of lines 128–139 and 160: `_md` defaults
to `True`, `index` to `'intel'`, `size` to `10000`; when `_md` holds the
index is replaced by the user's policy alias for it; the underlying
`elasticsearch.search` returns at most `size` hits of those matching
(`matching` abstracts the store's answer to the query). -/
def clientSearch (matching : List Obj) (today user_id : String)
    (md : Option Bool) (index : Option String) (size : Option Nat) : SearchOut :=
  let md' := md.getD true
  let index0 := index.getD "intel"
  let size' := size.getD 10000
  let target :=
    if md' then
      (md_time_index user_id index0 today).1 ++ "--" ++
        (md_time_index user_id index0 today).2
    else index0
  ⟨md', index0, target, size', matching.take size'⟩

end Git4Intel
namespace Git4Intel

/-! ## Supporting lemmas -/

theorem splitDDAux_no_dash (cs : List Char) :
    ∀ acc, '-' ∉ cs → splitDDAux cs acc = [acc.reverse ++ cs] := by
  induction cs with
  | nil => intro acc _; simp [splitDDAux]
  | cons c rest ih =>
    intro acc h
    rw [List.mem_cons, not_or] at h
    obtain ⟨hc, hrest⟩ := h
    rw [splitDDAux.eq_def]
    split
    · simp_all
    · rename_i heq2
      injection heq2 with h1 _
      exact absurd h1.symm hc
    · rename_i heq2
      injection heq2 with h1 h2
      subst h1; subst h2
      rw [ih _ hrest]
      simp

theorem contentHash_no_dash (seed : String) : '-' ∉ (contentHash seed).data := by
  simp only [contentHash]
  intro hmem
  rw [List.mem_map] at hmem
  obtain ⟨a, _, ha⟩ := hmem
  by_cases h : a = '-' <;> simp [h] at ha

theorem splitDD_det (seed : String) :
    splitDD (get_deterministic_uuid "marking-definition--" seed)
      = ["marking-definition", contentHash seed] := by
  have h1 : splitDDAux ((get_deterministic_uuid "marking-definition--" seed).data) []
      = "marking-definition".data :: splitDDAux (contentHash seed).data [] := rfl
  rw [splitDD, h1, splitDDAux_no_dash _ _ (contentHash_no_dash seed)]
  simp [String.mk]

theorem idType_det (seed : String) :
    idType (get_deterministic_uuid "marking-definition--" seed)
      = "marking-definition" := by
  rw [idType, splitDD_det]; rfl

theorem idUuid_det (seed : String) :
    idUuid (get_deterministic_uuid "marking-definition--" seed)
      = contentHash seed := by
  rw [idUuid, splitDD_det]; rfl

theorem storeExists_put (st : MdStore) (m : MarkingDef) :
    storeExists (storePut st m) (idType m.id) (idUuid m.id) = true := by
  simp [storeExists, storePut]

/-! ## C1: order-dependence of `set_tlpplus` marking identifiers -/

/-- Concrete first call for the C1 counterexample. -/
def c1First : TlpRet × MdStore × List String :=
  set_tlpplus [] "identity--userA" TLP_AMBER_id ["identity--U1", "identity--U2"]

/-- Concrete second call, same distribution set in reversed order. -/
def c1Second : TlpRet × MdStore × List String :=
  set_tlpplus c1First.2.1 "identity--userA" TLP_AMBER_id
    ["identity--U2", "identity--U1"]

/-- C1 counterexample: two `set_tlpplus` calls with the same base
classification and the same distribution set, the second with the list in a
different order, both succeed but return *different* marking identifiers and
leave *two* Marking Definition documents in the store — the identifier is
derived from the unsorted input list, so it is not order-independent. -/
theorem set_tlpplus_order_counterexample :
    c1First.1.retId.isSome ∧ c1Second.1.retId.isSome ∧
      c1First.1.retId ≠ c1Second.1.retId ∧ c1Second.2.1.length = 2 := by decide

/-- C1 (amended): calling `set_tlpplus` twice with the same base
classification and the *identical* distribution list (same order) returns
the same marking identifier both times — first as a creation, then via the
already-exists path — and stores exactly one Marking Definition document
(the store is unchanged by the second call). -/
theorem set_tlpplus_same_list_idempotent (st : MdStore) (u tlp : String)
    (refs : List String)
    (hu : idType u = "identity")
    (ht : tlp = TLP_AMBER_id ∨ tlp = TLP_RED_id)
    (hnew : storeExists st "marking-definition"
      (idUuid (get_deterministic_uuid "marking-definition--" (pyStrList refs)))
        = false) :
    set_tlpplus st u tlp refs =
      (.created (get_deterministic_uuid "marking-definition--" (pyStrList refs))
        ⟨get_deterministic_uuid "marking-definition--" (pyStrList refs),
          "tlp-plus", tlp, refs, u⟩,
       storePut st ⟨get_deterministic_uuid "marking-definition--" (pyStrList refs),
          "tlp-plus", tlp, refs, u⟩,
       refs ++ [tlp]) ∧
    set_tlpplus
        (storePut st ⟨get_deterministic_uuid "marking-definition--" (pyStrList refs),
          "tlp-plus", tlp, refs, u⟩) u tlp refs =
      (.existing (get_deterministic_uuid "marking-definition--" (pyStrList refs)),
       storePut st ⟨get_deterministic_uuid "marking-definition--" (pyStrList refs),
          "tlp-plus", tlp, refs, u⟩,
       refs ++ [tlp]) := by
  have hput := storeExists_put st
    ⟨get_deterministic_uuid "marking-definition--" (pyStrList refs),
      "tlp-plus", tlp, refs, u⟩
  rw [idType_det, idUuid_det] at hput
  rw [idUuid_det] at hnew
  rcases ht with h | h <;> subst h <;>
    simp [set_tlpplus, hu, hnew, hput, idUuid_det]

/-- Witness for `set_tlpplus_same_list_idempotent` at a concrete input. -/
theorem set_tlpplus_same_list_idempotent_witness :
    set_tlpplus [] "identity--userA" TLP_AMBER_id ["identity--U1"] =
      (.created
        (get_deterministic_uuid "marking-definition--" (pyStrList ["identity--U1"]))
        ⟨get_deterministic_uuid "marking-definition--" (pyStrList ["identity--U1"]),
          "tlp-plus", TLP_AMBER_id, ["identity--U1"], "identity--userA"⟩,
       storePut []
        ⟨get_deterministic_uuid "marking-definition--" (pyStrList ["identity--U1"]),
          "tlp-plus", TLP_AMBER_id, ["identity--U1"], "identity--userA"⟩,
       ["identity--U1"] ++ [TLP_AMBER_id]) ∧
    set_tlpplus
        (storePut []
          ⟨get_deterministic_uuid "marking-definition--" (pyStrList ["identity--U1"]),
            "tlp-plus", TLP_AMBER_id, ["identity--U1"], "identity--userA"⟩)
        "identity--userA" TLP_AMBER_id ["identity--U1"] =
      (.existing
        (get_deterministic_uuid "marking-definition--" (pyStrList ["identity--U1"])),
       storePut []
        ⟨get_deterministic_uuid "marking-definition--" (pyStrList ["identity--U1"]),
          "tlp-plus", TLP_AMBER_id, ["identity--U1"], "identity--userA"⟩,
       ["identity--U1"] ++ [TLP_AMBER_id]) :=
  set_tlpplus_same_list_idempotent [] "identity--userA" TLP_AMBER_id
    ["identity--U1"] (by decide) (Or.inl rfl) (by decide)

/-! ## C2: what a first-time `set_tlpplus` call stores -/

/-- C2 counterexample input: unsorted, with a duplicate. -/
def c2Refs : List String := ["identity--U2", "identity--U1", "identity--U2"]

/-- Concrete first-time call for the C2 counterexample. -/
def c2Run : TlpRet × MdStore × List String :=
  set_tlpplus [] "identity--userB" TLP_AMBER_id c2Refs

/-- distribution_refs of the document the C2 call stored. -/
def c2StoredRefs : Option (List String) :=
  c2Run.2.1.head?.map fun e => e.2.2.distribution_refs

/-- C2 counterexample: on a first-time call the stored Marking Definition's
`distribution_refs` equals the *original* input list — unsorted, with its
duplicate, and without the base-classification id — not the sorted,
de-duplicated, base-inclusive set the claim describes (the
`sorted(set(...))` value in the source is computed but never used for the
stored object).  The identifier is indeed derived from the unsorted
original. -/
theorem set_tlpplus_stored_refs_counterexample :
    c2StoredRefs = some c2Refs ∧
      c2StoredRefs ≠ some (specStoredDistributionRefs c2Refs TLP_AMBER_id) ∧
      c2Run.1.retId =
        some (get_deterministic_uuid "marking-definition--" (pyStrList c2Refs)) := by
  decide

/-- C2 (amended): on a first-time call the stored marking's
`distribution_refs` equals the input distribution list exactly as given
(unsorted, not de-duplicated, without the base-classification id), and the
marking identifier is derived from that same unsorted original list. -/
theorem set_tlpplus_stores_original_refs (st : MdStore) (u tlp : String)
    (refs : List String)
    (hu : idType u = "identity")
    (ht : tlp = TLP_AMBER_id ∨ tlp = TLP_RED_id)
    (hnew : storeExists st "marking-definition"
      (idUuid (get_deterministic_uuid "marking-definition--" (pyStrList refs)))
        = false) :
    (set_tlpplus st u tlp refs).1 =
      .created (get_deterministic_uuid "marking-definition--" (pyStrList refs))
        ⟨get_deterministic_uuid "marking-definition--" (pyStrList refs),
          "tlp-plus", tlp, refs, u⟩ := by
  rw [idUuid_det] at hnew
  rcases ht with h | h <;> subst h <;> simp [set_tlpplus, hu, hnew, idUuid_det]

/-- Witness for `set_tlpplus_stores_original_refs` at a concrete input. -/
theorem set_tlpplus_stores_original_refs_witness :
    (set_tlpplus [] "identity--userB" TLP_RED_id ["identity--U3", "identity--U3"]).1 =
      .created
        (get_deterministic_uuid "marking-definition--"
          (pyStrList ["identity--U3", "identity--U3"]))
        ⟨get_deterministic_uuid "marking-definition--"
          (pyStrList ["identity--U3", "identity--U3"]),
          "tlp-plus", TLP_RED_id, ["identity--U3", "identity--U3"],
          "identity--userB"⟩ :=
  set_tlpplus_stores_original_refs [] "identity--userB" TLP_RED_id
    ["identity--U3", "identity--U3"] (by decide) (Or.inr rfl) (by decide)

/-! ## C9: in-place mutation of the caller's list -/

/-- C9: on every non-error call, the caller's `distribution_refs` list ends
up with the base TLP marking id appended, while the marking that is hashed
and stored is built from the copy (`ref_list`) taken before the append: its
`distribution_refs` is the original list and its id hashes the original
list. -/
theorem set_tlpplus_appends_to_caller_list (st : MdStore) (u tlp : String)
    (refs : List String)
    (h : (set_tlpplus st u tlp refs).1 ≠ .err) :
    (set_tlpplus st u tlp refs).2.2 = refs ++ [tlp] ∧
      (∀ i m, (set_tlpplus st u tlp refs).1 = .created i m →
        m.distribution_refs = refs ∧
          i = get_deterministic_uuid "marking-definition--" (pyStrList refs)) := by
  by_cases h1 : idType u = "identity"
  · by_cases h2 : tlp ≠ TLP_AMBER_id ∧ tlp ≠ TLP_RED_id
    · exact absurd (by simp [set_tlpplus, h1, h2]) h
    · by_cases h3 : storeExists st "marking-definition"
          (idUuid (get_deterministic_uuid "marking-definition--" (pyStrList refs)))
            = true
      · constructor
        · simp [set_tlpplus, h1, h2, h3]
        · intro i m hm
          rw [show (set_tlpplus st u tlp refs).1
              = .existing (get_deterministic_uuid "marking-definition--"
                  (pyStrList refs)) from by simp [set_tlpplus, h1, h2, h3]] at hm
          exact absurd hm (by simp)
      · rw [Bool.not_eq_true] at h3
        constructor
        · simp [set_tlpplus, h1, h2, h3]
        · intro i m hm
          rw [show (set_tlpplus st u tlp refs).1
              = .created (get_deterministic_uuid "marking-definition--"
                  (pyStrList refs))
                  ⟨get_deterministic_uuid "marking-definition--" (pyStrList refs),
                    "tlp-plus", tlp, refs, u⟩ from
              by simp [set_tlpplus, h1, h2, h3]] at hm
          injection hm with hi hmd
          subst hi
          subst hmd
          exact ⟨rfl, rfl⟩
  · exact absurd (by simp [set_tlpplus, h1]) h

/-- Witness for `set_tlpplus_appends_to_caller_list` at a concrete input. -/
theorem set_tlpplus_appends_to_caller_list_witness :
    (set_tlpplus [] "identity--userC" TLP_RED_id ["identity--U7"]).2.2
        = ["identity--U7"] ++ [TLP_RED_id] ∧
      (∀ i m,
        (set_tlpplus [] "identity--userC" TLP_RED_id ["identity--U7"]).1
            = .created i m →
          m.distribution_refs = ["identity--U7"] ∧
            i = get_deterministic_uuid "marking-definition--"
              (pyStrList ["identity--U7"])) :=
  set_tlpplus_appends_to_caller_list [] "identity--userC" TLP_RED_id
    ["identity--U7"] (by decide)

end Git4Intel
namespace Git4Intel

theorem molLoop_growth_budget (store : List Obj) (cs : List Clause)
    (pivot objs : Bool) (query : Option Clause) :
    ∀ (fuel : Nat) (ids : List String) (lst : List Bool),
      (molLoop store cs pivot objs query ids lst fuel).growths ≤ fuel ∧
      ((molLoop store cs pivot objs query ids lst fuel).growths = fuel →
        (molLoop store cs pivot objs query ids lst fuel).res = .failure ∧
        (molLoop store cs pivot objs query ids lst fuel).finalSearches = []) := by
  intro fuel
  induction fuel with
  | zero => intro ids lst; simp [molLoop]
  | succ n ih =>
    intro ids lst
    simp only [molLoop]
    split
    · split <;> simp
    · obtain ⟨ihle, iheq⟩ := ih
        ((ids ++ (molRoundStep store cs pivot ids lst).harvested).dedup)
        ((molRoundStep store cs pivot ids lst).lst)
      refine ⟨?_, ?_⟩
      · show _ + 1 ≤ n + 1
        omega
      · intro hEq
        have hEq2 : (molLoop store cs pivot objs query
            ((ids ++ (molRoundStep store cs pivot ids lst).harvested).dedup)
            ((molRoundStep store cs pivot ids lst).lst) n).growths = n := by
          have : (molLoop store cs pivot objs query
              ((ids ++ (molRoundStep store cs pivot ids lst).harvested).dedup)
              ((molRoundStep store cs pivot ids lst).lst) n).growths + 1 = n + 1 :=
            hEq
          omega
        obtain ⟨hres, hfs⟩ := iheq hEq2
        exact ⟨hres, hfs⟩

/-- C4: whenever a traversal's frontier grows in more than 3 rounds, the
run aborts with the failure outcome and performs no hydration search — no
identifier set or object list is returned on that path. -/
theorem get_molecule_bounded (env : MolEnv) (stix_ids : List String)
    (schema_name : PyStr) (objs : Bool) (query : Option Clause) (pivot : Bool)
    (h : (get_molecule env stix_ids schema_name objs query pivot).growths > 3) :
    (get_molecule env stix_ids schema_name objs query pivot).res = .failure ∧
      (get_molecule env stix_ids schema_name objs query pivot).finalSearches
        = [] := by
  match hs : schema_name with
  | .notStr => simp [get_molecule]
  | .str name =>
    rw [get_molecule]
    match hl : env.schemas name with
    | none => simp
    | some cs =>
      obtain ⟨hle, heq⟩ := molLoop_growth_budget env.store cs pivot objs query
        4 stix_ids []
      have h2 : (molLoop env.store cs pivot objs query stix_ids [] 4).growths
          > 3 := by
        rw [get_molecule, hl] at h
        exact h
      apply heq
      omega

/-- Store objects for the C4 witness: a reference chain
`a → b → c → d → e` that grows the frontier by one id per round. -/
def c4Store : List Obj :=
  [⟨"identity--a", [("x_ref", "identity--b")], []⟩,
   ⟨"identity--b", [("x_ref", "identity--c")], []⟩,
   ⟨"identity--c", [("x_ref", "identity--d")], []⟩,
   ⟨"identity--d", [("x_ref", "identity--e")], []⟩]

/-- Environment for the C4 witness: one match-all schema clause. -/
def c4Env : MolEnv :=
  ⟨c4Store, fun n => if n = "m" then some [fun _ => true] else none⟩

/-- Witness for `get_molecule_bounded`: on the chain store the frontier
grows in 4 rounds and the traversal returns the failure outcome. -/
theorem get_molecule_bounded_witness :
    (get_molecule c4Env ["identity--a"] (.str "m") false none true).growths > 3 ∧
      (get_molecule c4Env ["identity--a"] (.str "m") false none true).res
        = .failure :=
  ⟨by decide,
   (get_molecule_bounded c4Env ["identity--a"] (.str "m") false none true
     (by decide)).1⟩

theorem molLoop_fixpoint (store : List Obj) (cs : List Clause)
    (pivot objs : Bool) (query : Option Clause) :
    ∀ (fuel : Nat) (ids : List String) (lst : List Bool),
      (molLoop store cs pivot objs query ids lst fuel).res ≠ .failure →
        (molLoop store cs pivot objs query ids lst fuel).rounds.length
            = (molLoop store cs pivot objs query ids lst fuel).growths + 1 ∧
        (objs = true →
          (molLoop store cs pivot objs query ids lst fuel).res =
            .objs (finalSearch store cs query
              (molLoop store cs pivot objs query ids lst fuel).finalIds) ∧
          (molLoop store cs pivot objs query ids lst fuel).finalSearches =
            [((molLoop store cs pivot objs query ids lst fuel).finalIds,
              query.isSome)]) ∧
        (objs = false →
          (molLoop store cs pivot objs query ids lst fuel).res =
            .ids (molLoop store cs pivot objs query ids lst fuel).finalIds ∧
          (molLoop store cs pivot objs query ids lst fuel).finalSearches
            = []) := by
  intro fuel
  induction fuel with
  | zero => intro ids lst h; exact absurd rfl h
  | succ n ih =>
    intro ids lst h
    by_cases hfix : ((ids ++ (molRoundStep store cs pivot ids lst).harvested).dedup).length
        = ids.length
    · simp only [molLoop]
      rw [if_pos hfix]
      cases objs <;> simp
    · simp only [molLoop] at h ⊢
      rw [if_neg hfix] at h ⊢
      obtain ⟨hlen, hT, hF⟩ := ih
        ((ids ++ (molRoundStep store cs pivot ids lst).harvested).dedup)
        ((molRoundStep store cs pivot ids lst).lst) h
      refine ⟨?_, fun ho => ?_, fun ho => ?_⟩
      · show ((molRoundStep store cs pivot ids lst).queried ::
            (molLoop store cs pivot objs query
              ((ids ++ (molRoundStep store cs pivot ids lst).harvested).dedup)
              ((molRoundStep store cs pivot ids lst).lst) n).rounds).length
            = (molLoop store cs pivot objs query
              ((ids ++ (molRoundStep store cs pivot ids lst).harvested).dedup)
              ((molRoundStep store cs pivot ids lst).lst) n).growths + 1 + 1
        rw [List.length_cons, hlen]
      · exact hT ho
      · exact hF ho

end Git4Intel
namespace Git4Intel

/-- C5: a traversal that does not fail stopped at the first non-growth
round (one more executed round than growth rounds); when hydrated objects
were requested it issued exactly one final search — over the final
identifier set, conjoined with the caller's extra query exactly when one was
given — and returned its hits; otherwise it returned the identifier set and
issued no final search. -/
theorem get_molecule_fixpoint_behaviour (env : MolEnv) (stix_ids : List String)
    (name : String) (cs : List Clause) (objs : Bool) (query : Option Clause)
    (pivot : Bool) (hs : env.schemas name = some cs)
    (h : (get_molecule env stix_ids (.str name) objs query pivot).res
      ≠ .failure) :
    (get_molecule env stix_ids (.str name) objs query pivot).rounds.length
        = (get_molecule env stix_ids (.str name) objs query pivot).growths + 1 ∧
      (objs = true →
        (get_molecule env stix_ids (.str name) objs query pivot).res =
          .objs (finalSearch env.store cs query
            (get_molecule env stix_ids (.str name) objs query pivot).finalIds) ∧
        (get_molecule env stix_ids (.str name) objs query pivot).finalSearches =
          [((get_molecule env stix_ids (.str name) objs query pivot).finalIds,
            query.isSome)]) ∧
      (objs = false →
        (get_molecule env stix_ids (.str name) objs query pivot).res =
          .ids (get_molecule env stix_ids (.str name) objs query pivot).finalIds ∧
        (get_molecule env stix_ids (.str name) objs query pivot).finalSearches
          = []) := by
  simp only [get_molecule, hs] at h ⊢
  exact molLoop_fixpoint env.store cs pivot objs query 4 stix_ids [] h

/-- Store for the C5 witness: `a` references `b`; fixpoint after two
rounds. -/
def c5Store : List Obj :=
  [⟨"identity--a", [("x_ref", "identity--b")], []⟩, ⟨"identity--b", [], []⟩]

/-- Schema clauses for the C5 witness. -/
def c5Clauses : List Clause := [fun _ => true]

/-- Environment for the C5 witness. -/
def c5Env : MolEnv :=
  ⟨c5Store, fun n => if n = "m" then some c5Clauses else none⟩

/-- Witness for `get_molecule_fixpoint_behaviour` at a concrete input with
`objs = true`. -/
theorem get_molecule_fixpoint_behaviour_witness :
    (get_molecule c5Env ["identity--a"] (.str "m") true none true).rounds.length
        = (get_molecule c5Env ["identity--a"] (.str "m") true none true).growths
          + 1 ∧
      (true = true →
        (get_molecule c5Env ["identity--a"] (.str "m") true none true).res =
          .objs (finalSearch c5Env.store c5Clauses none
            (get_molecule c5Env ["identity--a"] (.str "m") true none
              true).finalIds) ∧
        (get_molecule c5Env ["identity--a"] (.str "m") true none
            true).finalSearches =
          [((get_molecule c5Env ["identity--a"] (.str "m") true none
              true).finalIds, (none : Option Clause).isSome)]) ∧
      (true = false →
        (get_molecule c5Env ["identity--a"] (.str "m") true none true).res =
          .ids (get_molecule c5Env ["identity--a"] (.str "m") true none
            true).finalIds ∧
        (get_molecule c5Env ["identity--a"] (.str "m") true none
            true).finalSearches = []) :=
  get_molecule_fixpoint_behaviour c5Env ["identity--a"] "m" c5Clauses true none
    true rfl (by decide)

/-! ## C3: which clauses are skipped in later rounds with `pivot = false` -/

/-- Single store object for the C3 counterexample. -/
def c3Obj : Obj := ⟨"identity--a", [("x_ref", "identity--b")], []⟩

/-- Clause 0: matches exactly the seed object (has hits in round 1). -/
def c3Clause0 : Clause := fun o => o.id == "identity--a"

/-- Clause 1: matches nothing (zero hits in round 1). -/
def c3Clause1 : Clause := fun _ => false

/-- Environment for the C3 counterexample. -/
def c3Env : MolEnv :=
  ⟨[c3Obj], fun n => if n = "m" then some [c3Clause0, c3Clause1] else none⟩

/-- The C3 run: `pivot = false`, two rounds. -/
def c3Run : MolOut := get_molecule c3Env ["identity--a"] (.str "m") false none false

/-- C3 counterexample: in round 1 clause 0 returns a hit and clause 1
returns none, the frontier grows, and a round 2 executes — yet round 2
queries *no* clause at all (`rounds = [[0, 1], []]`): the clause that
returned hits is the one skipped (check list `is True`), contradicting the
claim that zero-hit clauses are the ones marked exhausted while hit clauses
continue to be queried. -/
theorem get_molecule_clause_skip_counterexample :
    (roundHits c3Env.store ["identity--a"] c3Clause0).length = 1 ∧
      (roundHits c3Env.store ["identity--a"] c3Clause1).length = 0 ∧
      c3Run.rounds = [[0, 1], []] := by decide

/-- C3 (amended): the check list marks clauses that *returned hits* (slot
`true`), and a marked slot causes a skip that does not advance the slot
cursor, so whenever the cursor's slot is `true` the entire rest of the round
is skipped — nothing queried, nothing harvested, check list unchanged; a
clause reached with its slot `false` (e.g. one that returned zero hits) is
queried again. -/
theorem clauseLoop_check_slot_behaviour (store : List Obj) (front : List String)
    (c : Clause) (cs : List Clause) (lst : List Bool) (count idx : Nat) :
    (lst.getD count false = true →
      clauseLoop store front (c :: cs) lst count idx = ⟨[], [], lst⟩) ∧
    (lst.getD count false = false →
      (clauseLoop store front (c :: cs) lst count idx).queried.head?
        = some idx) := by
  constructor
  · intro h
    have hall : ∀ (cls : List Clause) (idx2 : Nat),
        clauseLoop store front cls lst count idx2 = ⟨[], [], lst⟩ := by
      intro cls
      induction cls with
      | nil => intro idx2; simp [clauseLoop]
      | cons c2 cs2 ih =>
        intro idx2
        rw [clauseLoop, if_pos h]
        exact ih _
    exact hall _ _
  · intro h
    have h2 : lst[count]?.getD false = false := by simpa [List.getD] using h
    simp [clauseLoop, h2]

/-- Witness for `clauseLoop_check_slot_behaviour`: with the slot `true`
nothing is queried; with it `false` the head clause is queried. -/
theorem clauseLoop_check_slot_behaviour_witness :
    clauseLoop [] [] [fun _ => true] [true] 0 0 = ⟨[], [], [true]⟩ ∧
      (clauseLoop [] [] [fun _ => true] [false] 0 5).queried.head? = some 5 :=
  ⟨(clauseLoop_check_slot_behaviour [] [] (fun _ => true) [] [true] 0 0).1 rfl,
   (clauseLoop_check_slot_behaviour [] [] (fun _ => true) [] [false] 0 5).2 rfl⟩

/-! ## C8: input validation of `get_molecule` -/

/-- An empty frontier matches no object: there are no id clauses and the
`query_string` built from it is empty. -/
theorem frontierMatch_nil (o : Obj) : frontierMatch [] o = false := by
  simp [frontierMatch]

/-- A round search with an empty frontier returns no hits. -/
theorem roundHits_nil (store : List Obj) (c : Clause) :
    roundHits store [] c = [] := by
  simp [roundHits, frontierMatch_nil]

/-- With an empty frontier the clause loop harvests nothing. -/
theorem clauseLoop_nil_front_harvested (store : List Obj) :
    ∀ (cls : List Clause) (lst : List Bool) (count idx : Nat),
      (clauseLoop store [] cls lst count idx).harvested = [] := by
  intro cls
  induction cls with
  | nil => intro lst count idx; simp [clauseLoop]
  | cons c cs2 ih =>
    intro lst count idx
    rw [clauseLoop]
    split
    · exact ih lst count (idx + 1)
    · simp [roundHits_nil, ih]

/-- With an empty seed the first round reaches the fixpoint immediately and
the id list is returned. -/
theorem molLoop_empty_seed (store : List Obj) (cs : List Clause) (pivot : Bool)
    (query : Option Clause) (lst : List Bool) (n : Nat) :
    (molLoop store cs pivot false query [] lst (n + 1)).res = .ids [] := by
  have hstep : (molRoundStep store cs pivot [] lst).harvested = [] := by
    cases pivot <;>
      simp [molRoundStep, roundHits_nil, clauseLoop_nil_front_harvested]
  simp only [molLoop, hstep]
  simp

/-- Environment for the C8 counterexample. -/
def c8Env : MolEnv :=
  ⟨[⟨"identity--z", [], []⟩], fun n => if n = "m" then some [fun _ => true] else none⟩

/-- C8 run with an empty seed set. -/
def c8Run : MolOut := get_molecule c8Env [] (.str "m") false none true

/-- C8 counterexample: with an empty seed identifier set `get_molecule` does
*not* fail — there is no empty-seed validation in the source; the first
round finds nothing, reaches the fixpoint at once and the empty identifier
list is returned. -/
theorem get_molecule_empty_seed_counterexample :
    c8Run.res = .ids [] ∧ c8Run.res ≠ .failure := by decide

/-- C8 (amended): a non-string schema name fails immediately with the
failure outcome (no rounds executed, nothing returned); an empty seed set is
not rejected — the traversal proceeds and, requesting ids, returns the empty
identifier set rather than a failure. -/
theorem get_molecule_input_checks (env : MolEnv) (stix_ids : List String)
    (objs : Bool) (query : Option Clause) (pivot : Bool) (name : String)
    (cs : List Clause) (hs : env.schemas name = some cs) :
    ((get_molecule env stix_ids .notStr objs query pivot).res = .failure ∧
      (get_molecule env stix_ids .notStr objs query pivot).rounds = []) ∧
      (get_molecule env [] (.str name) false query pivot).res = .ids [] := by
  refine ⟨⟨rfl, rfl⟩, ?_⟩
  simp only [get_molecule, hs]
  exact molLoop_empty_seed env.store cs pivot query [] 3

/-- Schema clauses for the C8 witness. -/
def c8Clauses : List Clause := [fun _ => true]

/-- Environment for the C8 witness. -/
def c8EnvW : MolEnv :=
  ⟨[⟨"identity--y", [], []⟩], fun n => if n = "m" then some c8Clauses else none⟩

/-- Witness for `get_molecule_input_checks` at a concrete environment. -/
theorem get_molecule_input_checks_witness :
    ((get_molecule c8EnvW ["identity--y"] .notStr false none true).res = .failure ∧
      (get_molecule c8EnvW ["identity--y"] .notStr false none true).rounds = []) ∧
      (get_molecule c8EnvW [] (.str "m") false none true).res = .ids [] :=
  get_molecule_input_checks c8EnvW ["identity--y"] false none true "m" c8Clauses rfl

end Git4Intel
namespace Git4Intel

/-! ## C6: the distribution criterion set omits ancestor organizations -/

/-- C6: every object the `org` molecule traversal can return has `type`
`identity` or `relationship` (the extra query in `get_id_markings` filters
on exactly those two types), so the `org['type'] == 'organization'` test on
line 366 never fires and the candidate distribution criterion set contains
*only* the user's own uuid — never an ancestor organization's. -/
theorem buildOrgShould_no_ancestors (u : String) (orgObjs : List OrgObj)
    (h : ∀ o ∈ orgObjs, o.typ = "identity" ∨ o.typ = "relationship") :
    buildOrgShould u orgObjs = [idUuid u] := by
  unfold buildOrgShould
  have hf : orgObjs.filter (fun o => o.typ == "organization") = [] := by
    rw [List.filter_eq_nil_iff]
    intro o ho
    rcases h o ho with h1 | h1 <;> simp [h1]
  rw [hf]
  rfl

/-- Witness for `buildOrgShould_no_ancestors` at the failing input: a user
with an ancestor organization (STIX type `identity`) and the membership
relationship; the ancestor is not included. -/
theorem buildOrgShould_no_ancestors_witness :
    buildOrgShould "identity--a1"
      [⟨"identity--a1", "identity"⟩, ⟨"identity--org1", "identity"⟩,
       ⟨"relationship--r1", "relationship"⟩] = [idUuid "identity--a1"] :=
  buildOrgShould_no_ancestors "identity--a1"
    [⟨"identity--a1", "identity"⟩, ⟨"identity--org1", "identity"⟩,
     ⟨"relationship--r1", "relationship"⟩] (by decide)

/-! ## C7: the per-day policy view cache -/

/-- Cache hit: when the view for `(user, index, day)` exists its name is
returned with no store operation. -/
theorem get_id_markings_hit (st : AliasStore) (env : IdMarkEnv)
    (day u idx : String)
    (hmem : aliasMem st (idx ++ "-md-" ++ idUuid u) day = true) :
    get_id_markings st env day u idx =
      (some (idx ++ "-md-" ++ idUuid u ++ "--" ++ day), st, []) := by
  simp [get_id_markings, md_time_index, hmem]

/-- Cache miss with a resolvable org chart: stale views for the same root
are deleted, the predicate is built, and the new day's view is created. -/
theorem get_id_markings_miss (st : AliasStore) (env : IdMarkEnv)
    (day u idx : String)
    (hmem : aliasMem st (idx ++ "-md-" ++ idUuid u) day = false)
    (horg : env.orgObjs ≠ []) :
    get_id_markings st env day u idx =
      (some (idx ++ "-md-" ++ idUuid u ++ "--" ++ day),
       (idx ++ "-md-" ++ idUuid u, day, policyBody env u) ::
         st.filter (fun a => !(a.1 == idx ++ "-md-" ++ idUuid u)),
       [.deletedPattern (idx ++ "-md-" ++ idUuid u), .builtPredicate,
        .createdView (idx ++ "-md-" ++ idUuid u ++ "--" ++ day)]) := by
  have hoe : env.orgObjs.isEmpty = false := by
    simpa [List.isEmpty_iff] using horg
  simp [get_id_markings, md_time_index, hmem, hoe]

/-- A successful call leaves the view for its root and day in the store,
under the returned name. -/
theorem get_id_markings_success (st : AliasStore) (env : IdMarkEnv)
    (day u idx name : String) (st1 : AliasStore) (evs1 : List AliasEvent)
    (h1 : get_id_markings st env day u idx = (some name, st1, evs1)) :
    name = idx ++ "-md-" ++ idUuid u ++ "--" ++ day ∧
      aliasMem st1 (idx ++ "-md-" ++ idUuid u) day = true := by
  by_cases hmem : aliasMem st (idx ++ "-md-" ++ idUuid u) day = true
  · rw [get_id_markings_hit st env day u idx hmem] at h1
    injection h1 with ha hbc
    injection hbc with hb hc
    injection ha with ha
    subst ha; subst hb
    exact ⟨rfl, hmem⟩
  · rw [Bool.not_eq_true] at hmem
    by_cases horg : env.orgObjs = []
    · have h0 : (get_id_markings st env day u idx).1 = none := by
        simp [get_id_markings, md_time_index, hmem, horg]
      rw [h1] at h0
      simp at h0
    · rw [get_id_markings_miss st env day u idx hmem horg] at h1
      injection h1 with ha hbc
      injection hbc with hb hc
      injection ha with ha
      subst ha; subst hb
      refine ⟨rfl, ?_⟩
      simp [aliasMem]

/-- No view with the given root survives a `root*` pattern delete. -/
theorem aliasMem_filter_root (st : AliasStore) (root day : String) :
    aliasMem (st.filter fun a => !(a.1 == root)) root day = false := by
  rw [aliasMem, List.any_eq_false]
  intro a ha
  rw [List.mem_filter] at ha
  obtain ⟨_, hf⟩ := ha
  simp only [Bool.not_eq_true'] at hf
  simp [hf]

/-- C7: given a successful `get_id_markings` call for `today` (cache hit or
build), (a) a second call on the same day returns the identical view name
with no store operation and no predicate rebuild at all, and (b) a call on a
day whose view does not yet exist first deletes the views matching the
user+index root — removing today's — then builds the predicate and creates
and returns the new day's view name. -/
theorem get_id_markings_cache (st : AliasStore) (env : IdMarkEnv)
    (today today2 u idx name : String) (st1 : AliasStore)
    (evs1 : List AliasEvent)
    (h1 : get_id_markings st env today u idx = (some name, st1, evs1))
    (horg : env.orgObjs ≠ [])
    (hday2 : aliasMem st1 (idx ++ "-md-" ++ idUuid u) today2 = false) :
    get_id_markings st1 env today u idx = (some name, st1, []) ∧
      get_id_markings st1 env today2 u idx =
        (some (idx ++ "-md-" ++ idUuid u ++ "--" ++ today2),
         (idx ++ "-md-" ++ idUuid u, today2, policyBody env u) ::
           st1.filter (fun a => !(a.1 == idx ++ "-md-" ++ idUuid u)),
         [.deletedPattern (idx ++ "-md-" ++ idUuid u), .builtPredicate,
          .createdView (idx ++ "-md-" ++ idUuid u ++ "--" ++ today2)]) ∧
      aliasMem ((idx ++ "-md-" ++ idUuid u, today2, policyBody env u) ::
          st1.filter (fun a => !(a.1 == idx ++ "-md-" ++ idUuid u)))
        (idx ++ "-md-" ++ idUuid u) today2 = true ∧
      aliasMem ((idx ++ "-md-" ++ idUuid u, today2, policyBody env u) ::
          st1.filter (fun a => !(a.1 == idx ++ "-md-" ++ idUuid u)))
        (idx ++ "-md-" ++ idUuid u) today = false := by
  obtain ⟨hname, hmem1⟩ := get_id_markings_success st env today u idx name st1
    evs1 h1
  subst hname
  have hne : (today == today2) = false := by
    by_cases he : today = today2
    · subst he
      rw [hmem1] at hday2
      exact absurd hday2 (by simp)
    · simp [he]
  refine ⟨get_id_markings_hit st1 env today u idx hmem1,
    get_id_markings_miss st1 env today2 u idx hday2 horg, ?_, ?_⟩
  · simp [aliasMem]
  · have htail := aliasMem_filter_root st1 (idx ++ "-md-" ++ idUuid u) today
    rw [aliasMem] at htail ⊢
    simp only [List.any_cons, htail, Bool.or_false]
    have : (today2 == today) = false := by
      rw [Bool.eq_false_iff]
      intro hc
      rw [beq_iff_eq] at hc
      subst hc
      simp at hne
    simp [this]

/-- Environment for the C7 witness. -/
def c7Env : IdMarkEnv :=
  ⟨["marking-definition--osdm1"], [⟨"identity--u1", "identity"⟩],
   [("marking-definition--mdx", ["identity--u1"])], "marking-definition--pii1"⟩

/-- View-name root for the C7 witness user and index. -/
def c7Root : String := "intel" ++ "-md-" ++ idUuid "identity--u1"

/-- View store after the C7 witness's first (building) call. -/
def c7St1 : AliasStore :=
  [(c7Root, "2020-01-01", policyBody c7Env "identity--u1")]

/-- Witness for `get_id_markings_cache`: after the day's view is built, a
same-day repeat returns the same name with no store operations, and the
day's view is gone from the store produced by the next day's call. -/
theorem get_id_markings_cache_witness :
    get_id_markings c7St1 c7Env "2020-01-01" "identity--u1" "intel"
        = (some (c7Root ++ "--" ++ "2020-01-01"), c7St1, []) ∧
      aliasMem ((c7Root, "2020-01-02", policyBody c7Env "identity--u1") ::
          c7St1.filter (fun a => !(a.1 == c7Root)))
        c7Root "2020-01-01" = false := by
  have h := get_id_markings_cache [] c7Env "2020-01-01" "2020-01-02"
    "identity--u1" "intel" (c7Root ++ "--" ++ "2020-01-01") c7St1
    [.deletedPattern c7Root, .builtPredicate,
     .createdView (c7Root ++ "--" ++ "2020-01-01")]
    (by decide) (by decide) (by decide)
  exact ⟨h.1, h.2.2.2⟩

/-! ## C10: `Client.search` defaults -/

/-- C10: omitting `size` sets it to `10000` and the returned hits are the
store's answer truncated to at most `10000`; omitting `index` targets the
`'intel'` alias (the logical index the policy alias is then derived from);
omitting `_md` enables marking enforcement. -/
theorem clientSearch_defaults (matching : List Obj) (today u : String)
    (md : Option Bool) (index : Option String) (sz : Option Nat) :
    (clientSearch matching today u md index none).size = 10000 ∧
      (clientSearch matching today u md index none).hits
        = matching.take 10000 ∧
      (clientSearch matching today u md index none).hits.length ≤ 10000 ∧
      (clientSearch matching today u md none sz).logicalIndex = "intel" ∧
      (clientSearch matching today u none index sz).md = true := by
  refine ⟨rfl, rfl, ?_, rfl, rfl⟩
  show (matching.take 10000).length ≤ 10000
  rw [List.length_take]
  exact Nat.min_le_left _ _

end Git4Intel
